import Mathlib

/-!
Shallow embedding of `src/Task21.ino`, a single-sensor gas monitor for
ESP32: an exponential-moving-average filter over the ADC reading, a
three-state threshold classifier driving an RGB indicator, a buzzer
waveform generator, and a three-button settings menu rendered on an OLED.

Machine integers are modelled as `Nat` (for the unsigned `uint8_t`,
`uint16_t`, `uint32_t` variables) and `Int` (for signed intermediates),
with explicit reductions `% 2^w` / `emod` exactly where the C code
converts a wider signed value back into an unsigned variable.  C integer
division on `int` truncates toward zero, which is `Int.tdiv`.
-/

/-- Reduction of a signed intermediate into a `uint8_t` variable:
conversion to unsigned is reduction modulo 2^8. -/
def toUInt8n (x : Int) : Nat := (x % 256).toNat

/-- Reduction of a signed intermediate into a `uint16_t` variable:
conversion to unsigned is reduction modulo 2^16. -/
def toUInt16n (x : Int) : Nat := (x % 65536).toNat

/-- `typedef enum { Ok, Control, Critical } State;` (Task21.ino lines 43-47). -/
inductive State
  | Ok
  | Control
  | Critical
deriving DecidableEq

/-- `typedef struct Setting` (Task21.ino lines 50-62): buzzer enable flag,
the two thresholds (`uint16_t`), and the gradient-LED flag. -/
structure Setting where
  buzzer_en : Bool
  medium_threshold : Nat
  high_threshold : Nat
  gradient_led_display : Bool
deriving DecidableEq

/-- The default-initialised `Setting setting;` global: defaults
`0, 1000, 2000, 0` from the struct member initialisers. -/
def defaultSetting : Setting := ⟨false, 1000, 2000, false⟩

/-- An RGB triple as stored in a FastLED `CRGB` (three `uint8_t` channels). -/
structure CRGBColor where
  r : Nat
  g : Nat
  b : Nat
deriving DecidableEq

/-- FastLED `CRGB::Green` = `0x008000`. -/
def crgbGreen : CRGBColor := ⟨0, 128, 0⟩

/-- FastLED `CRGB::Yellow` = `0xFFFF00`. -/
def crgbYellow : CRGBColor := ⟨255, 255, 0⟩

/-- FastLED `CRGB::Red` = `0xFF0000`. -/
def crgbRed : CRGBColor := ⟨255, 0, 0⟩

/-- Arduino `map(x, in_min, in_max, out_min, out_max)`:
`(x - in_min) * (out_max - out_min) / (in_max - in_min) + out_min` in
`long` arithmetic; C division of signed integers truncates toward zero. -/
def arduinoMap (x in_min in_max out_min out_max : Int) : Int :=
  ((x - in_min) * (out_max - out_min)).tdiv (in_max - in_min) + out_min

/-- The gradient channel of `updateState` (Task21.ino line 116):
`uint8_t color = map(value, setting.medium_threshold, setting.high_threshold, 0, 255);`
the `long` result is converted into a `uint8_t`. -/
def gradChannel (value m h : Nat) : Nat :=
  toUInt8n (arduinoMap value m h 0 255)

/-- The low-pass filter step of `updateState` (Task21.ino line 106):
`value += (now_val - value) / 10;` where `value` and `now_val` are
`uint16_t`.  Both operands are promoted to `int` (32-bit, no overflow for
16-bit inputs), the difference is divided by 10 truncating toward zero,
and the sum is converted back into the `uint16_t` variable `value`. -/
def emaStep (value now_val : Nat) : Nat :=
  toUInt16n ((value : Int) + ((now_val : Int) - (value : Int)).tdiv 10)

/-- The classification and indicator-colour part of `updateState`
(Task21.ino lines 108-125): the if / else-if / else chain on `value`
against the two thresholds, with the gradient branch inside `Control`. -/
def classify (value : Nat) (s : Setting) : State × CRGBColor :=
  if value < s.medium_threshold then
    (State.Ok, crgbGreen)
  else if value < s.high_threshold then
    if s.gradient_led_display then
      (State.Control, ⟨gradChannel value s.medium_threshold s.high_threshold,
                       255 - gradChannel value s.medium_threshold s.high_threshold, 0⟩)
    else
      (State.Control, crgbYellow)
  else
    (State.Critical, crgbRed)

/-- `buzzerHandler` (Task21.ino lines 225-247): the digital level written
to the buzzer pin as a function of the enable flag, the state and the
current `millis()` value (`uint32_t`, modelled as its `Nat` value).
`true` is HIGH, `false` is LOW; `digitalWrite(pin, time < 50)` writes the
boolean comparison result. -/
def buzzerLevel (buzzer_en : Bool) (st : State) (now : Nat) : Bool :=
  if buzzer_en = false then
    false
  else
    match st with
    | State.Ok => false
    | State.Control => decide (now % 500 < 50)
    | State.Critical => decide (now % 100 < 50)

/-- The button events consumed by one call of `display()`
(Task21.ino lines 153-162): `ok_btn.isClick()`, `right_btn.isClick()`,
`right_btn.isStep()`, `left_btn.isClick()`, `left_btn.isStep()`. -/
structure ButtonEvents where
  ok_click : Bool
  right_click : Bool
  right_step : Bool
  left_click : Bool
  left_step : Bool
deriving DecidableEq

/-- The tick with no button event fired. -/
def noEvents : ButtonEvents := ⟨false, false, false, false, false⟩

/-- Wraparound of a signed intermediate into an `int8_t` variable
(two's-complement, range -128..127). -/
def int8wrap (x : Int) : Int := (x + 128) % 256 - 128

/-- The accumulation of `int8_t step` in `display()` (Task21.ino lines
155-162): `step += 10` on a right click, `step += 100` on a right step,
`step -= 10` on a left click, `step -= 100` on a left step, each result
stored back into the `int8_t` variable.  (All reachable values lie in
-110..110, inside the `int8_t` range, so no wraparound ever fires.) -/
def stepDelta (ev : ButtonEvents) : Int :=
  let s0 : Int := 0
  let s1 := if ev.right_click then int8wrap (s0 + 10) else s0
  let s2 := if ev.right_step then int8wrap (s1 + 100) else s1
  let s3 := if ev.left_click then int8wrap (s2 - 10) else s2
  if ev.left_step then int8wrap (s3 - 100) else s3

/-- The menu-handling part of `display()` (Task21.ino lines 153-184):
the cursor advance on an OK click (`cursor = (cursor + 1) % 4`), the
`step` accumulation, and — when `step != 0` — the `switch (cursor)`
updating exactly one settings field.  `cursor` is an `int8_t` that is
always in 0..3, modelled as a `Nat`; the threshold updates
`+= step` convert the signed sum back into the `uint16_t` field. -/
def menuTick (cursor : Nat) (s : Setting) (ev : ButtonEvents) : Nat × Setting :=
  let cursor' := if ev.ok_click then (cursor + 1) % 4 else cursor
  let step := stepDelta ev
  if step ≠ 0 then
    let s' : Setting :=
      match cursor' with
      | 0 => ⟨decide (0 < step), s.medium_threshold, s.high_threshold, s.gradient_led_display⟩
      | 1 => ⟨s.buzzer_en, toUInt16n ((s.medium_threshold : Int) + step), s.high_threshold,
              s.gradient_led_display⟩
      | 2 => ⟨s.buzzer_en, s.medium_threshold, toUInt16n ((s.high_threshold : Int) + step),
              s.gradient_led_display⟩
      | 3 => ⟨s.buzzer_en, s.medium_threshold, s.high_threshold, decide (0 < step)⟩
      | _ => s
    (cursor', s')
  else
    (cursor', s)

/-- The redraw decision of `display()` (Task21.ino lines 136-186): the
local `bool update_flag = 1;` is initialised to `1` on every call, set to
`1` again when `old_state != state`, set to `true` again when
`step != 0`, and then tested by `if (update_flag)` to guard the render. -/
def displayRedrawFlag (old_state st : State) (ev : ButtonEvents) : Bool :=
  let update_flag := true
  let update_flag := if old_state ≠ st then true else update_flag
  let update_flag := if stepDelta ev ≠ 0 then true else update_flag
  update_flag

/-! ### Helper lemmas -/

/-- Converting a `Nat` value below 2^16 into a `uint16_t` is the identity. -/
theorem toUInt16n_of_lt (n : Nat) (h : n < 65536) : toUInt16n (n : Int) = n := by
  unfold toUInt16n
  rw [Int.emod_eq_of_lt (by positivity) (by exact_mod_cast h), Int.toNat_natCast]

/-- Converting a `Nat` value below 2^8 into a `uint8_t` is the identity. -/
theorem toUInt8n_of_lt (n : Nat) (h : n < 256) : toUInt8n (n : Int) = n := by
  unfold toUInt8n
  rw [Int.emod_eq_of_lt (by positivity) (by exact_mod_cast h), Int.toNat_natCast]

/-- In the gradient branch (`m ≤ v < h`) the `uint8_t` channel computed by
`map(value, m, h, 0, 255)` equals the `Nat`-division linear-map formula. -/
theorem gradChannel_eq (v m h : Nat) (hmv : m ≤ v) (hvh : v < h) :
    gradChannel v m h = (v - m) * 255 / (h - m) := by
  have hmh : m < h := lt_of_le_of_lt hmv hvh
  unfold gradChannel arduinoMap
  have h1 : ((v : Int) - (m : Int)) * (255 - 0) = (((v - m) * 255 : Nat) : Int) := by
    push_cast [Nat.cast_sub hmv]
    ring
  have h2 : (h : Int) - (m : Int) = ((h - m : Nat) : Int) := by
    push_cast [Nat.cast_sub (le_of_lt hmh)]
    ring
  rw [h1, h2, ← Int.ofNat_tdiv, add_zero]
  have hle : (v - m) * 255 / (h - m) ≤ 255 := by
    calc (v - m) * 255 / (h - m) ≤ (h - m) * 255 / (h - m) :=
          Nat.div_le_div_right (Nat.mul_le_mul_right _ (by omega))
      _ = 255 := Nat.mul_div_cancel_left _ (by omega)
  exact toUInt8n_of_lt _ (by omega)

/-- The classifier output inside the gradient branch. -/
theorem classify_gradient (v m h : Nat) (b : Bool) (hmv : m ≤ v) (hvh : v < h) :
    classify v ⟨b, m, h, true⟩ =
      (State.Control,
        ⟨(v - m) * 255 / (h - m), 255 - (v - m) * 255 / (h - m), 0⟩) := by
  unfold classify
  rw [if_neg (by simp only; omega), if_pos (by simpa using hvh)]
  simp [gradChannel_eq v m h hmv hvh]

/-! ### C1 -/

/-- C1: for thresholds `m < h` the classifier of `updateState` yields `Ok`
iff `v < m`, `Control` iff `m ≤ v < h`, and `Critical` iff `v ≥ h`. -/
theorem classify_state_iff (v m h : Nat) (hmh : m < h) (b g : Bool) :
    ((classify v ⟨b, m, h, g⟩).1 = State.Ok ↔ v < m) ∧
    ((classify v ⟨b, m, h, g⟩).1 = State.Control ↔ m ≤ v ∧ v < h) ∧
    ((classify v ⟨b, m, h, g⟩).1 = State.Critical ↔ h ≤ v) := by
  unfold classify
  split_ifs <;> simp_all
  all_goals omega

/-- Witness for C1 at `v = 500`, `m = 1000`, `h = 2000`. -/
theorem classify_state_iff_witness :
    ((classify 500 ⟨false, 1000, 2000, false⟩).1 = State.Ok ↔ 500 < 1000) ∧
    ((classify 500 ⟨false, 1000, 2000, false⟩).1 = State.Control ↔ 1000 ≤ 500 ∧ 500 < 2000) ∧
    ((classify 500 ⟨false, 1000, 2000, false⟩).1 = State.Critical ↔ 2000 ≤ 500) :=
  classify_state_iff 500 1000 2000 (by decide) false false

/-! ### C2 -/

/-- C2 counterexample: with smoothed value 2500 and `high_threshold = 2000`
but `medium_threshold = 3000`, the first branch of the else-if chain fires
and the device reports `Ok` with a green light, not `Critical` with red. -/
theorem classify_2500_not_always_critical :
    classify 2500 ⟨false, 3000, 2000, false⟩ = (State.Ok, crgbGreen) ∧
    (State.Ok, crgbGreen) ≠ ((State.Critical, crgbRed) : State × CRGBColor) := by
  decide

/-- C2 amended: with smoothed value 2500 and `high_threshold = 2000`, the
classifier yields `Critical` and red for every `medium_threshold ≤ 2500`
(the else-if chain first tests `value < medium_threshold`). -/
theorem classify_2500_critical (m : Nat) (hm : m ≤ 2500) (b g : Bool) :
    classify 2500 ⟨b, m, 2000, g⟩ = (State.Critical, crgbRed) := by
  unfold classify
  split_ifs <;> simp_all
  all_goals omega

/-- Witness for C2 amended at `medium_threshold = 1000`. -/
theorem classify_2500_critical_witness :
    classify 2500 ⟨false, 1000, 2000, false⟩ = (State.Critical, crgbRed) :=
  classify_2500_critical 1000 (by decide) false false

/-! ### C3 -/

/-- C3: with the buzzer enabled the level written by `buzzerHandler` is
HIGH in state `Control` exactly when `now % 500 < 50` and in state
`Critical` exactly when `now % 100 < 50`; in state `Ok`, or whenever the
buzzer is disabled, the level is LOW. -/
theorem buzzer_waveform (now : Nat) :
    (buzzerLevel true State.Control now = true ↔ now % 500 < 50) ∧
    (buzzerLevel true State.Critical now = true ↔ now % 100 < 50) ∧
    buzzerLevel true State.Ok now = false ∧
    (∀ st, buzzerLevel false st now = false) := by
  refine ⟨?_, ?_, rfl, fun st => rfl⟩
  all_goals simp [buzzerLevel]

/-! ### C4 -/

/-- C4 (code bug): the local `bool update_flag = 1;` in `display()` is
initialised to true on every call, so the render is performed on every
loop iteration — in particular in an iteration where the state did not
change and no button fired, contrary to the redraw-only-when-needed
contract. -/
theorem display_always_redraws :
    displayRedrawFlag State.Ok State.Ok noEvents = true ∧
    (∀ old st ev, displayRedrawFlag old st ev = true) := by
  refine ⟨rfl, fun old st ev => ?_⟩
  unfold displayRedrawFlag
  split_ifs <;> rfl

/-! ### Filter-step characterisation -/

/-- Truncating division by 10 of a cast `Nat` is `Nat` division. -/
theorem natCast_tdiv_ten (a : Nat) : (a : Int).tdiv 10 = ((a / 10 : Nat) : Int) := by
  exact_mod_cast (Int.ofNat_tdiv a 10).symm

/-- When the raw sample is at least the old smoothed value, the filter
step is the plain `Nat` computation `s + (r - s) / 10` (no wraparound). -/
theorem emaStep_eq_of_le (s r : Nat) (hle : s ≤ r) (hr : r < 65536) :
    emaStep s r = s + (r - s) / 10 := by
  have harg : (s : Int) + ((r : Int) - (s : Int)).tdiv 10
      = ((s + (r - s) / 10 : Nat) : Int) := by
    rw [show (r : Int) - (s : Int) = ((r - s : Nat) : Int) by
          push_cast [Nat.cast_sub hle]; ring,
        natCast_tdiv_ten]
    push_cast
    ring
  unfold emaStep
  rw [harg]
  exact toUInt16n_of_lt _ (by have := Nat.div_le_self (r - s) 10; omega)

/-- When the raw sample is at most the old smoothed value, the filter
step is the plain `Nat` computation `s - (s - r) / 10` (no wraparound;
C division truncates toward zero, so the negative delta rounds up). -/
theorem emaStep_eq_of_ge (s r : Nat) (hge : r ≤ s) (hs : s < 65536) :
    emaStep s r = s - (s - r) / 10 := by
  have h10 : (s - r) / 10 ≤ s := le_trans (Nat.div_le_self _ _) (Nat.sub_le _ _)
  have harg : (s : Int) + ((r : Int) - (s : Int)).tdiv 10
      = ((s - (s - r) / 10 : Nat) : Int) := by
    rw [show (r : Int) - (s : Int) = -(((s - r : Nat) : Int)) by
          push_cast [Nat.cast_sub hge]; ring,
        Int.neg_tdiv, natCast_tdiv_ten, Nat.cast_sub h10]
    ring
  unfold emaStep
  rw [harg]
  exact toUInt16n_of_lt _ (by omega)

/-! ### C5 -/

/-- With raw sample 500, a smoothed value at most 491 stays at most 491:
from 491 the truncated increment `(500 - 491) / 10` is zero. -/
theorem emaStep_500_le (v : Nat) (hv : v ≤ 491) : emaStep v 500 ≤ 491 := by
  rw [emaStep_eq_of_le v 500 (by omega) (by omega)]
  omega

/-- Every iterate of the filter from the zero-initialised global stays
at most 491 when the raw sample is constantly 500. -/
theorem iterate_emaStep_500_le (n : Nat) : (fun v => emaStep v 500)^[n] 0 ≤ 491 := by
  induction n with
  | zero => simp
  | succ n ih =>
    rw [Function.iterate_succ_apply']
    exact emaStep_500_le _ ih

/-- C5 counterexample: with the raw sample 500 on every filter tick the
smoothed value, starting from the zero-initialised global `value`, never
equals 500 — integer truncation stops the climb at 491. -/
theorem smoothed_never_reaches_500 :
    ¬ ∃ n : Nat, (fun v => emaStep v 500)^[n] 0 = 500 := by
  rintro ⟨n, hn⟩
  have := iterate_emaStep_500_le n
  omega

set_option maxRecDepth 4000 in
/-- C5 amended: with the raw sample 500 on every filter tick the smoothed
value reaches 491 after 43 ticks and stays there forever (491 is a fixed
point of the truncated update); with the default thresholds the state is
then `Ok`, the indicator is green, and — the buzzer being disabled by
default — the alarm output is LOW. -/
theorem smoothed_500_stabilizes :
    (fun v => emaStep v 500)^[43] 0 = 491 ∧
    (∀ k, (fun v => emaStep v 500)^[43 + k] 0 = 491) ∧
    classify 491 defaultSetting = (State.Ok, crgbGreen) ∧
    (∀ now st, buzzerLevel defaultSetting.buzzer_en st now = false) := by
  have hfix : (fun v => emaStep v 500) 491 = 491 := by decide
  have h43 : (fun v => emaStep v 500)^[43] 0 = 491 := by decide
  refine ⟨h43, fun k => ?_, by decide, fun now st => rfl⟩
  calc (fun v => emaStep v 500)^[43 + k] 0
      = (fun v => emaStep v 500)^[k] ((fun v => emaStep v 500)^[43] 0) := by
        rw [Nat.add_comm, Function.iterate_add_apply]
    _ = 491 := by
        rw [h43]
        exact @Function.iterate_fixed Nat (fun v => emaStep v 500) 491 hfix k

/-! ### C6 -/

/-- C6: one filter update with previous smoothed value `s` and raw sample
`r` (both `uint16_t`) lands between `s` and `r` inclusive. -/
theorem emaStep_between (s r : Nat) (hs : s < 65536) (hr : r < 65536) :
    min s r ≤ emaStep s r ∧ emaStep s r ≤ max s r := by
  rcases Nat.le_total s r with hle | hge
  · rw [emaStep_eq_of_le s r hle hr]
    have := Nat.div_le_self (r - s) 10
    omega
  · rw [emaStep_eq_of_ge s r hge hs]
    have := Nat.div_le_self (s - r) 10
    omega

/-- Witness for C6 at `s = 1000`, `r = 500`. -/
theorem emaStep_between_witness :
    min 1000 500 ≤ emaStep 1000 500 ∧ emaStep 1000 500 ≤ max 1000 500 :=
  emaStep_between 1000 500 (by decide) (by decide)

/-! ### C7 -/

/-- The deficit of the linear-map channel just below the high threshold,
multiplied out: `255 - c(h-1)` is below `255 / (h - m) + 1`. -/
theorem linear_map_near_top (m h : Nat) (hmh : m < h) :
    (255 - (h - 1 - m) * 255 / (h - m)) * (h - m) < 255 + (h - m) := by
  set k := h - m with hk
  set A := (h - 1 - m) * 255 with hA
  have hkpos : 0 < k := by omega
  have hdm := Nat.div_add_mod A k
  have hmlt := Nat.mod_lt A hkpos
  set c := A / k with hc
  set rr := A % k with hr
  have hAval : A = (k - 1) * 255 := by omega
  rcases Nat.le_total c 255 with hcle | hcge
  · zify [hcle]
    have h1 : (k : Int) * (c : Int) + (rr : Int) = (A : Int) := by exact_mod_cast hdm
    have h2 : (rr : Int) < (k : Int) := by exact_mod_cast hmlt
    have h3 : (A : Int) = ((k : Int) - 1) * 255 := by
      rw [show ((k : Int) - 1) = ((k - 1 : Nat) : Int) by
            push_cast [Nat.cast_sub (by omega : 1 ≤ k)]; ring]
      exact_mod_cast hAval
    nlinarith [h1, h2, h3]
  · have hzero : 255 - c = 0 := by omega
    rw [hzero]
    omega

/-- C7: with gradient mode on and thresholds `m < h`, for every `v` in
`[m, h)` the classifier reports `Control` with colour `(c, 255 - c, 0)`
where `c = (v - m) * 255 / (h - m)` is the standard integer linear map
from 0 at `m` to 255 at `h`; at `v = m` the colour is `(0, 255, 0)`; `c`
is monotone non-decreasing in `v`; and at `v = h - 1` the red channel is
within `255 / (h - m) + 1` of 255 (stated multiplied out by `h - m`). -/
theorem gradient_color_spec (m h : Nat) (hmh : m < h) (b : Bool) :
    (∀ v, m ≤ v → v < h →
      classify v ⟨b, m, h, true⟩ =
        (State.Control,
          ⟨(v - m) * 255 / (h - m), 255 - (v - m) * 255 / (h - m), 0⟩)) ∧
    classify m ⟨b, m, h, true⟩ = (State.Control, ⟨0, 255, 0⟩) ∧
    (∀ v v', m ≤ v → v ≤ v' → v' < h →
      (classify v ⟨b, m, h, true⟩).2.r ≤ (classify v' ⟨b, m, h, true⟩).2.r) ∧
    (255 - (classify (h - 1) ⟨b, m, h, true⟩).2.r) * (h - m) < 255 + (h - m) := by
  refine ⟨fun v hmv hvh => classify_gradient v m h b hmv hvh, ?_, ?_, ?_⟩
  · have hm := classify_gradient m m h b le_rfl hmh
    simpa using hm
  · intro v v' hmv hvv hv'h
    rw [classify_gradient v m h b hmv (lt_of_le_of_lt hvv hv'h),
        classify_gradient v' m h b (le_trans hmv hvv) hv'h]
    exact Nat.div_le_div_right (Nat.mul_le_mul_right _ (by omega))
  · rw [classify_gradient (h - 1) m h b (by omega) (by omega)]
    exact linear_map_near_top m h hmh

/-- Witness for C7 at `m = 1000`, `h = 2000`. -/
theorem gradient_color_spec_witness :
    (∀ v, 1000 ≤ v → v < 2000 →
      classify v ⟨false, 1000, 2000, true⟩ =
        (State.Control,
          ⟨(v - 1000) * 255 / (2000 - 1000),
           255 - (v - 1000) * 255 / (2000 - 1000), 0⟩)) ∧
    classify 1000 ⟨false, 1000, 2000, true⟩ = (State.Control, ⟨0, 255, 0⟩) ∧
    (∀ v v', 1000 ≤ v → v ≤ v' → v' < 2000 →
      (classify v ⟨false, 1000, 2000, true⟩).2.r ≤
        (classify v' ⟨false, 1000, 2000, true⟩).2.r) ∧
    (255 - (classify (2000 - 1) ⟨false, 1000, 2000, true⟩).2.r) * (2000 - 1000) <
      255 + (2000 - 1000) :=
  gradient_color_spec 1000 2000 (by decide) false

/-! ### C8 -/

/-- C8: the net `step` of one `display()` tick is the sum of the four
button contributions (click ±10 and hold/step ±100 are not mutually
exclusive); in particular, with the cursor on the medium threshold and
both `right_btn.isClick()` and `right_btn.isStep()` firing in the same
tick, `medium_threshold` grows by 110. -/
theorem step_sum_and_combo (s : Setting) (hlt : s.medium_threshold < 65426) :
    (∀ ev : ButtonEvents, stepDelta ev =
      (if ev.right_click then (10 : Int) else 0) + (if ev.right_step then 100 else 0)
        - (if ev.left_click then 10 else 0) - (if ev.left_step then 100 else 0)) ∧
    (menuTick 1 s ⟨false, true, true, false, false⟩).2.medium_threshold =
      s.medium_threshold + 110 := by
  constructor
  · intro ev
    obtain ⟨o, rc, rs, lc, ls⟩ := ev
    cases o <;> cases rc <;> cases rs <;> cases lc <;> cases ls <;> decide
  · have hstep : stepDelta ⟨false, true, true, false, false⟩ = 110 := by decide
    unfold menuTick
    rw [hstep]
    norm_num
    rw [show (s.medium_threshold : Int) + 110 = ((s.medium_threshold + 110 : Nat) : Int) by
          push_cast; ring]
    rw [toUInt16n_of_lt _ (by omega)]

/-- Witness for C8 at the default settings. -/
theorem step_sum_and_combo_witness :
    defaultSetting.medium_threshold < 65426 ∧
    (menuTick 1 defaultSetting ⟨false, true, true, false, false⟩).2.medium_threshold =
      defaultSetting.medium_threshold + 110 :=
  ⟨by decide, (step_sum_and_combo defaultSetting (by decide)).2⟩

/-! ### C9 -/

/-- C9: a nonzero net delta applied with the cursor on one of the two
thresholds updates that threshold by unchecked unsigned 16-bit addition:
the new value is `(old + delta) mod 2^16`, wrapping around when a
negative delta passes below zero. -/
theorem threshold_wraparound (s : Setting) (ev : ButtonEvents)
    (hok : ev.ok_click = false) (hd : stepDelta ev ≠ 0) :
    (menuTick 1 s ev).2.medium_threshold =
      (((s.medium_threshold : Int) + stepDelta ev) % 65536).toNat ∧
    (menuTick 2 s ev).2.high_threshold =
      (((s.high_threshold : Int) + stepDelta ev) % 65536).toNat := by
  unfold menuTick
  rw [hok]
  simp [hd, toUInt16n]

/-- Witness for C9: a lone left click (delta −10) on thresholds 5 and 7
wraps the medium threshold to 65531 and the high threshold to 65533. -/
theorem threshold_wraparound_witness :
    (menuTick 1 ⟨false, 5, 7, false⟩ ⟨false, false, false, true, false⟩).2.medium_threshold
        = 65531 ∧
    (menuTick 2 ⟨false, 5, 7, false⟩ ⟨false, false, false, true, false⟩).2.high_threshold
        = 65533 := by
  have hw := threshold_wraparound ⟨false, 5, 7, false⟩ ⟨false, false, false, true, false⟩
    rfl (by decide)
  exact ⟨hw.1.trans (by decide), hw.2.trans (by decide)⟩

/-! ### C10 -/

/-- All settings fields other than the one at cursor position `c` agree
between `s` and `s'`. -/
def otherFieldsUnchanged (c : Nat) (s s' : Setting) : Prop :=
  (c ≠ 0 → s'.buzzer_en = s.buzzer_en) ∧
  (c ≠ 1 → s'.medium_threshold = s.medium_threshold) ∧
  (c ≠ 2 → s'.high_threshold = s.high_threshold) ∧
  (c ≠ 3 → s'.gradient_led_display = s.gradient_led_display)

/-- C10: one menu tick modifies at most the settings field selected by
the (possibly just advanced) cursor, and modifies nothing at all when the
net delta is zero. -/
theorem menuTick_frame (c : Nat) (s : Setting) (ev : ButtonEvents) :
    otherFieldsUnchanged (menuTick c s ev).1 s (menuTick c s ev).2 ∧
    (stepDelta ev = 0 → (menuTick c s ev).2 = s) := by
  unfold menuTick otherFieldsUnchanged
  by_cases hd : stepDelta ev = 0
  · simp [hd]
  · simp only [hd, ne_eq, not_false_eq_true, if_true, ite_not]
    rcases hc' : (if ev.ok_click then (c + 1) % 4 else c) with _ | _ | _ | _ | k <;>
      simp_all

/-- Witness for C10: a no-event tick at cursor 2 leaves the default
settings untouched. -/
theorem menuTick_frame_witness :
    otherFieldsUnchanged (menuTick 2 defaultSetting noEvents).1 defaultSetting
        (menuTick 2 defaultSetting noEvents).2 ∧
    (menuTick 2 defaultSetting noEvents).2 = defaultSetting :=
  ⟨(menuTick_frame 2 defaultSetting noEvents).1,
   (menuTick_frame 2 defaultSetting noEvents).2 (by decide)⟩
